import Mathlib

/-!
Verification of the AutoLife insurance claims decision engine.

The definitions below are a shallow embedding of the deterministic core of
the repository: the analysis tools in `src/agent/tools.py`
(`extract_claim_information`, `check_policy_coverage`, `assess_fraud_risk`,
`calculate_approved_amount`), the free-text recommendation parser and the
orchestration loop in `src/agent/claims_agent.py`, and the pydantic data
models in `src/models/claim.py` and `src/models/policy.py`.

Python floats are modelled as rationals (`ℚ`), Python strings as `List Char`,
`datetime` values as a calendar-date triple, and pydantic validation as
smart constructors returning `Option`.  The small regular expressions used
by the source are modelled by hand-written scanners that reproduce the
leftmost, greedy-with-backtracking semantics of Python's `re` module on the
concrete patterns involved.  Human-readable presentation strings (the
`reason` and `calculation` audit texts) carry no decision logic and are
omitted from the embedded records.
-/

namespace AutoLife

/-- Lower-case a character sequence; models Python `str.lower()`
(faithful on ASCII, which is all the source's keyword sets use). -/
def lower (s : List Char) : List Char := s.map Char.toLower

/-- Substring test: `occurs needle hay` models the Python expression
`needle in hay` on strings. -/
def occurs (needle : List Char) : List Char → Bool
  | [] => needle.isEmpty
  | c :: t => needle.isPrefixOf (c :: t) || occurs needle t

/-- Convenience wrapper for `occurs` taking the needle as a string literal. -/
def occursS (needle : String) (hay : List Char) : Bool := occurs needle.data hay

/-- Count the positions at which `needle` starts in `hay`.  For needles that
cannot overlap themselves (such as `"claim"`, the only needle the source
counts) this equals Python's non-overlapping `str.count`. -/
def countOcc (needle : List Char) : List Char → Nat
  | [] => 0
  | c :: t => (if needle.isPrefixOf (c :: t) then 1 else 0) + countOcc needle t

/-- Numeric value of a decimal digit character. -/
def digitVal (c : Char) : Nat := c.toNat - 48

/-- Value of a list of decimal digit characters, most significant first;
models Python `int(...)` on a digit string. -/
def digitsToNat (ds : List Char) : Nat := ds.foldl (fun n c => 10 * n + digitVal c) 0

/-- Rounding to two decimal places; models Python `round(x, 2)` on the
exact rational value. -/
def round2 (x : ℚ) : ℚ := (round (100 * x) : ℤ) / 100

/-- Result record of `calculate_approved_amount`
(Python returns these fields as a JSON object; the human-readable
`calculation` audit string is omitted). -/
structure SettlementResult where
  approved_amount : ℚ
  deductible_applied : ℚ
  coverage_limit_applied : Bool
  deriving Repr, DecidableEq

/-- Model of `ClaimsTools.calculate_approved_amount`
(src/agent/tools.py, lines 311-361). -/
def calculate_approved_amount (claim_amount coverage_limit deductible : ℚ)
    (is_covered : Bool) : SettlementResult :=
  if !is_covered then
    { approved_amount := 0, deductible_applied := 0, coverage_limit_applied := false }
  else
    let amount_after_limit := min claim_amount coverage_limit
    let coverage_limit_applied := decide (claim_amount > coverage_limit)
    let approved_amount := max 0 (amount_after_limit - deductible)
    { approved_amount := round2 approved_amount,
      deductible_applied := deductible,
      coverage_limit_applied := coverage_limit_applied }

/-- Fraud risk levels (`FraudRiskLevel` in src/models/claim.py). -/
inductive FraudRiskLevel where
  | low
  | medium
  | high
  | critical
  deriving Repr, DecidableEq

/-- Result record of `assess_fraud_risk` (`FraudAssessment` in
src/models/claim.py). -/
structure FraudAssessmentResult where
  risk_level : FraudRiskLevel
  risk_score : ℚ
  indicators : List String
  recommendation : String
  requires_investigation : Bool
  deriving Repr, DecidableEq

/-- One `if <indicator>: indicators.append(..); risk_score += w` step of
`assess_fraud_risk`. -/
def fraudStep (cond : Bool) (ind : String) (w : ℚ) (acc : List String × ℚ) :
    List String × ℚ :=
  if cond then (acc.1 ++ [ind], acc.2 + w) else acc

/-- Indicator-accumulation phase of `ClaimsTools.assess_fraud_risk`
(src/agent/tools.py, lines 239-276): starting from `([], 0.0)`, each fraud
indicator appends its description and adds its weight when triggered. -/
def fraudIndicatorsAndScore (claim_text : String) (claim_amount : ℚ)
    (policy_age_days : ℤ) : List String × ℚ :=
  let claim_lower := lower claim_text.data
  fraudStep (occursS "not sure" claim_lower || occursS "don\x27t know" claim_lower
      || occursS "not exactly" claim_lower) "Vague or inconsistent details" 10
  (fraudStep ((occursS "cousin" claim_lower || occursS "friend" claim_lower
      || occursS "family" claim_lower)
      && (occursS "repair" claim_lower || occursS "shop" claim_lower))
      "Repair shop has personal connection" 15
  (fraudStep (decide (countOcc "claim".data claim_lower > 3)
      || occursS "previous claim" claim_lower || occursS "other claim" claim_lower)
      "Multiple recent claims mentioned" 25
  (fraudStep (["financial difficult", "need money", "cash", "payment today"].any
      (fun w => occursS w claim_lower)) "Financial distress mentioned" 20
  (fraudStep (occursS "no witness" claim_lower || occursS "no police report" claim_lower)
      "Lack of documentation or witnesses" 20
  (fraudStep (occursS "urgent" claim_lower || occursS "immediately" claim_lower
      || occursS "urgently" claim_lower) "Urgency language detected" 10
  (fraudStep (decide (claim_amount > 10000)) "High claim amount (over $10,000)" 15
  (fraudStep (decide (policy_age_days < 30)) "Policy is very new (less than 30 days)" 25
  ([], 0))))))))

/-- Risk-level thresholds of `assess_fraud_risk`
(src/agent/tools.py, lines 279-294). -/
def levelOf (s : ℚ) : FraudRiskLevel :=
  if s ≥ 70 then .critical
  else if s ≥ 40 then .high
  else if s ≥ 20 then .medium
  else .low

/-- Model of `ClaimsTools.assess_fraud_risk` (src/agent/tools.py,
lines 225-305): indicator accumulation, threshold classification, and the
result record with the score capped at 100 and an empty-safe indicator
list. -/
def assess_fraud_risk (claim_text : String) (claim_amount : ℚ)
    (policy_age_days : ℤ) : FraudAssessmentResult :=
  let acc := fraudIndicatorsAndScore claim_text claim_amount policy_age_days
  let indicators := acc.1
  let risk_score := acc.2
  let levelInfo : FraudRiskLevel × String × Bool :=
    if risk_score ≥ 70 then
      (.critical, "REJECT - High fraud risk, requires immediate investigation", true)
    else if risk_score ≥ 40 then
      (.high, "HOLD - Multiple fraud indicators, manual review required", true)
    else if risk_score ≥ 20 then
      (.medium, "REVIEW - Some concerns, additional verification recommended", true)
    else
      (.low, "PROCEED - Low fraud risk, normal processing", false)
  { risk_level := levelInfo.1,
    risk_score := min risk_score 100,
    indicators := if indicators.isEmpty then
      ["No significant fraud indicators detected"] else indicators,
    recommendation := levelInfo.2.1,
    requires_investigation := levelInfo.2.2 }

/-- The eight independent fraud indicators of `assess_fraud_risk`, as the
booleans deciding the exact trigger conditions of the source. -/
structure FraudTriggers where
  new_policy : Bool
  high_amount : Bool
  urgency : Bool
  missing_documentation : Bool
  financial_distress : Bool
  repeated_claims : Bool
  connected_repair : Bool
  vague_details : Bool
  deriving Repr, DecidableEq

/-- The triggers fired by a given input to `assess_fraud_risk`. -/
def fraudTriggers (claim_text : String) (claim_amount : ℚ)
    (policy_age_days : ℤ) : FraudTriggers :=
  let claim_lower := lower claim_text.data
  { new_policy := decide (policy_age_days < 30),
    high_amount := decide (claim_amount > 10000),
    urgency := occursS "urgent" claim_lower || occursS "immediately" claim_lower
      || occursS "urgently" claim_lower,
    missing_documentation := occursS "no witness" claim_lower
      || occursS "no police report" claim_lower,
    financial_distress := ["financial difficult", "need money", "cash", "payment today"].any
      (fun w => occursS w claim_lower),
    repeated_claims := decide (countOcc "claim".data claim_lower > 3)
      || occursS "previous claim" claim_lower || occursS "other claim" claim_lower,
    connected_repair := (occursS "cousin" claim_lower || occursS "friend" claim_lower
      || occursS "family" claim_lower)
      && (occursS "repair" claim_lower || occursS "shop" claim_lower),
    vague_details := occursS "not sure" claim_lower || occursS "don\x27t know" claim_lower
      || occursS "not exactly" claim_lower }

/-- Weight contributed by one indicator. -/
def weight (b : Bool) (w : ℚ) : ℚ := if b then w else 0

/-- Uncapped fraud score: the sum of the weights of the triggered
indicators, each applied at most once. -/
def fraudScoreRaw (t : FraudTriggers) : ℚ :=
  weight t.new_policy 25 + weight t.high_amount 15 + weight t.urgency 10
    + weight t.missing_documentation 20 + weight t.financial_distress 20
    + weight t.repeated_claims 25 + weight t.connected_repair 15
    + weight t.vague_details 10

/-- Pointwise order on triggers: every indicator fired on the left also
fires on the right. -/
def FraudTriggers.le (t u : FraudTriggers) : Prop :=
  t.new_policy ≤ u.new_policy ∧ t.high_amount ≤ u.high_amount
    ∧ t.urgency ≤ u.urgency ∧ t.missing_documentation ≤ u.missing_documentation
    ∧ t.financial_distress ≤ u.financial_distress
    ∧ t.repeated_claims ≤ u.repeated_claims
    ∧ t.connected_repair ≤ u.connected_repair ∧ t.vague_details ≤ u.vague_details

instance (t u : FraudTriggers) : Decidable (FraudTriggers.le t u) := by
  unfold FraudTriggers.le; infer_instance

/-- Calendar timestamps, at the day granularity the policy windows and
extracted incident dates use; models Python `datetime` values. -/
structure DateTime where
  year : ℕ
  month : ℕ
  day : ℕ
  deriving Repr, DecidableEq

/-- Chronological comparison of timestamps (`datetime.__le__`). -/
def DateTime.le (a b : DateTime) : Bool :=
  a.year < b.year || (a.year = b.year &&
    (a.month < b.month || (a.month = b.month && a.day ≤ b.day)))

/-- Coverage categories (`CoverageType` in src/models/policy.py). -/
inductive CoverageType where
  | auto_collision
  | auto_comprehensive
  | auto_liability
  | home_property
  | home_theft
  | home_natural_disaster
  | home_liability
  | health_emergency
  | health_hospitalization
  | health_prescription
  | health_preventive
  | life_term
  | life_whole
  deriving Repr, DecidableEq

/-- String value of a coverage category (the `str`-enum values in
src/models/policy.py). -/
def CoverageType.value : CoverageType → String
  | .auto_collision => "auto_collision"
  | .auto_comprehensive => "auto_comprehensive"
  | .auto_liability => "auto_liability"
  | .home_property => "home_property"
  | .home_theft => "home_theft"
  | .home_natural_disaster => "home_natural_disaster"
  | .home_liability => "home_liability"
  | .health_emergency => "health_emergency"
  | .health_hospitalization => "health_hospitalization"
  | .health_prescription => "health_prescription"
  | .health_preventive => "health_preventive"
  | .life_term => "life_term"
  | .life_whole => "life_whole"

/-- Policy lifecycle states (`PolicyStatus` in src/models/policy.py). -/
inductive PolicyStatus where
  | active
  | expired
  | suspended
  | cancelled
  deriving Repr, DecidableEq

/-- One coverage entry of a policy (`Coverage` in src/models/policy.py). -/
structure Coverage where
  coverage_type : CoverageType
  coverage_limit : ℚ
  deductible : ℚ
  description : String
  deriving Repr, DecidableEq

/-- An insurance policy record (`Policy` in src/models/policy.py). -/
structure Policy where
  policy_number : String
  policy_type : String
  policyholder : String
  status : PolicyStatus
  effective_date : DateTime
  expiry_date : DateTime
  coverages : List Coverage
  annual_premium : ℚ
  deriving Repr, DecidableEq

/-- Model of `Policy.is_active` (src/models/policy.py): active status and
the current time inside the validity window.  `now` is passed explicitly
where Python reads `datetime.now()`. -/
def Policy.is_active (p : Policy) (now : DateTime) : Bool :=
  decide (p.status = PolicyStatus.active)
    && DateTime.le p.effective_date now && DateTime.le now p.expiry_date

/-- Model of `Policy.get_coverage`: first coverage entry of the given
category. -/
def Policy.get_coverage (p : Policy) (ct : CoverageType) : Option Coverage :=
  p.coverages.find? (fun c => c.coverage_type = ct)

/-- Model of `ClaimsTools._get_policy`: first policy with the given
number. -/
def getPolicy (policies : List Policy) (policy_number : String) : Option Policy :=
  policies.find? (fun p => p.policy_number = policy_number)

/-- The claim-type to coverage-type table of `check_policy_coverage`
(src/agent/tools.py, lines 183-189), with `coverage_map.get`'s
`auto_collision` default for unmapped types. -/
def coverage_map (claim_type : String) : CoverageType :=
  if claim_type = "auto" then .auto_collision
  else if claim_type = "home" then .home_property
  else if claim_type = "health" then .health_emergency
  else .auto_collision

/-- Result record of `check_policy_coverage` (`PolicyCoverageCheck` in
src/models/claim.py; the human-readable `reason` string is omitted). -/
structure PolicyCoverageCheckR where
  is_valid : Bool
  coverage_type : String
  coverage_limit : ℚ
  deductible : ℚ
  is_covered : Bool
  policy_expiry : Option DateTime
  deriving Repr, DecidableEq

/-- Model of `ClaimsTools.check_policy_coverage` (src/agent/tools.py,
lines 140-219). -/
def check_policy_coverage (policies : List Policy) (now : DateTime)
    (policy_number claim_type : String) (claim_amount : ℚ) : PolicyCoverageCheckR :=
  match getPolicy policies policy_number with
  | none =>
    { is_valid := false, coverage_type := "unknown", coverage_limit := 0,
      deductible := 0, is_covered := false, policy_expiry := none }
  | some policy =>
    if !policy.is_active now then
      { is_valid := false, coverage_type := policy.policy_type, coverage_limit := 0,
        deductible := 0, is_covered := false, policy_expiry := some policy.expiry_date }
    else
      let coverage_type := coverage_map claim_type
      match policy.get_coverage coverage_type with
      | none =>
        { is_valid := true, coverage_type := policy.policy_type, coverage_limit := 0,
          deductible := 0, is_covered := false, policy_expiry := none }
      | some coverage =>
        let is_covered := decide (claim_amount ≤ coverage.coverage_limit)
        { is_valid := true, coverage_type := coverage_type.value,
          coverage_limit := coverage.coverage_limit, deductible := coverage.deductible,
          is_covered := is_covered, policy_expiry := some policy.expiry_date }

/-- A sample policy record, shaped like the entries of
src/data/policies.json, used to instantiate witnesses. -/
def samplePolicy : Policy :=
  { policy_number := "POL-AUTO-005", policy_type := "auto", policyholder := "Jane Doe",
    status := PolicyStatus.expired,
    effective_date := ⟨2023, 1, 1⟩, expiry_date := ⟨2024, 1, 1⟩,
    coverages := [{ coverage_type := CoverageType.auto_collision, coverage_limit := 50000,
                    deductible := 500, description := "Collision coverage" }],
    annual_premium := 1200 }

/-! ### Monetary-token scanners

The source matches money with the regular expression
`\d{1,3}(?:,\d{3})*(?:\.\d{2})?` (optionally `$`-prefixed or
`dollars`-suffixed).  The scanners below reproduce Python `re`'s leftmost
scan with greedy quantifiers; where a suffix literal can force quantifier
backtracking, all quantifier splits are enumerated in Python's preference
order. -/

/-- Drop leading whitespace; models a greedy `\s*`. -/
def dropWS (s : List Char) : List Char := s.dropWhile Char.isWhitespace

/-- Greedy `\d{1,3}` at the head of the input: up to three leading digits,
`none` when the head is not a digit. -/
def takeDigits13 (s : List Char) : Option (List Char × List Char) :=
  let ds := (s.takeWhile Char.isDigit).take 3
  if ds.isEmpty then none else some (ds, s.drop ds.length)

/-- Greedy `(?:,\d{3})*` at the head of the input: maximal run of
comma-plus-three-digit groups. -/
def starThousands : List Char → List Char × List Char
  | ',' :: a :: b :: c :: r =>
    if a.isDigit && b.isDigit && c.isDigit then
      let (m, rest) := starThousands r
      (',' :: a :: b :: c :: m, rest)
    else ([], ',' :: a :: b :: c :: r)
  | s => ([], s)

/-- Greedy `(?:\.\d{2})?` at the head of the input. -/
def optDecimal : List Char → List Char × List Char
  | '.' :: a :: b :: r =>
    if a.isDigit && b.isDigit then (['.', a, b], r) else ([], '.' :: a :: b :: r)
  | s => ([], s)

/-- Greedy match of the number pattern at the head of the input, returning
the matched token and the rest.  No continuation follows the pattern in the
`$`-prefixed and bare forms, so greediness needs no backtracking there. -/
def matchNum (s : List Char) : Option (List Char × List Char) :=
  match takeDigits13 s with
  | none => none
  | some (d, r1) =>
    let (g, r2) := starThousands r1
    let (f, r3) := optDecimal r2
    some (d ++ g ++ f, r3)

/-- Numeric value of a matched token: models
`float(token.replace(',', ''))`, exact on the at-most-two-decimal tokens
the pattern produces. -/
def parseNumChars (tok : List Char) : ℚ :=
  let t := tok.filter (fun c => c ≠ ',')
  match t.span (fun c => c ≠ '.') with
  | (ip, []) => (digitsToNat ip : ℚ)
  | (ip, _ :: fp) => (digitsToNat ip : ℚ) + (digitsToNat fp : ℚ) / 100

/-- Fuel-indexed scan for `re.findall` of `\$\s*(<number>)`
(src/agent/claims_agent.py, line 243): at each position try `$`, skip
whitespace, greedily match the number; on success record the captured group
and continue after the match.  The fuel is the input length, which bounds
the number of scan steps. -/
def findDollarAmountsAux : ℕ → List Char → List ℚ
  | 0, _ => []
  | _ + 1, [] => []
  | fuel + 1, c :: t =>
    if c = '$' then
      match matchNum (dropWS t) with
      | some (tok, rest) => parseNumChars tok :: findDollarAmountsAux fuel rest
      | none => findDollarAmountsAux fuel t
    else findDollarAmountsAux fuel t

/-- All `$`-prefixed monetary tokens of a text, in scan order. -/
def findDollarAmounts (s : List Char) : List ℚ := findDollarAmountsAux s.length s

/-- Backtracking candidates for `\d{1,n}` at the head of the input, longest
(greedy) first. -/
def digitCandidates (n : ℕ) (s : List Char) : List (List Char × List Char) :=
  let ds := (s.takeWhile Char.isDigit).take n
  (List.range ds.length).map (fun i =>
    let k := ds.length - i
    (ds.take k, s.drop k))

/-- Backtracking candidates for `(?:,\d{3})*` at the head of the input,
most repetitions (greedy) first. -/
def starCandidates : List Char → List (List Char × List Char)
  | ',' :: a :: b :: c :: r =>
    if a.isDigit && b.isDigit && c.isDigit then
      (starCandidates r).map (fun p => (',' :: a :: b :: c :: p.1, p.2))
        ++ [([], ',' :: a :: b :: c :: r)]
    else [([], ',' :: a :: b :: c :: r)]
  | s => [([], s)]

/-- Backtracking candidates for `(?:\.\d{2})?` at the head of the input,
taken (greedy) first. -/
def decCandidates : List Char → List (List Char × List Char)
  | '.' :: a :: b :: r =>
    if a.isDigit && b.isDigit then [(['.', a, b], r), ([], '.' :: a :: b :: r)]
    else [([], '.' :: a :: b :: r)]
  | s => [([], s)]

/-- All ways the number pattern can match at the head of the input, in
Python's backtracking preference order (rightmost quantifier gives way
first). -/
def numCandidates (s : List Char) : List (List Char × List Char) :=
  (digitCandidates 3 s).flatMap (fun d =>
    (starCandidates d.2).flatMap (fun g =>
      (decCandidates g.2).map (fun f => (d.1 ++ g.1 ++ f.1, f.2))))

/-- Fuel-indexed scan for `re.findall` of `(<number>)\s*dollars`
(src/agent/claims_agent.py, line 244): at each position take the first
number split whose remainder continues with optional whitespace and the
literal `dollars`; on success continue after the literal. -/
def findDollarsSuffixAux : ℕ → List Char → List ℚ
  | 0, _ => []
  | _ + 1, [] => []
  | fuel + 1, s =>
    match (numCandidates s).find?
        (fun p => "dollars".data.isPrefixOf (dropWS p.2)) with
    | some p => parseNumChars p.1 :: findDollarsSuffixAux fuel ((dropWS p.2).drop 7)
    | none =>
      match s with
      | [] => []
      | _ :: t => findDollarsSuffixAux fuel t

/-- All `dollars`-suffixed monetary tokens of a text, in scan order. -/
def findDollarsSuffix (s : List Char) : List ℚ := findDollarsSuffixAux s.length s

/-- Maximum of a list of amounts; on a non-empty list this models Python
`max(amounts)` (the empty-list value 0 is never selected by the callers,
which test for emptiness first). -/
def maxOfList : List ℚ → ℚ
  | [] => 0
  | a :: t => t.foldl max a

/-! ### Free-text recommendation parsing -/

/-- Claim decision states (`ClaimStatus` in src/models/claim.py). -/
inductive ClaimStatus where
  | pending
  | approved
  | denied
  | needs_review
  deriving Repr, DecidableEq

/-- A final recommendation (`ClaimRecommendation` in src/models/claim.py;
the `processed_at` wall-clock field is omitted). -/
structure ClaimRecommendationR where
  status : ClaimStatus
  approved_amount : ℚ
  reasoning : String
  confidence : ℚ
  next_steps : List String
  deriving Repr, DecidableEq

/-- Pydantic validation of `ClaimRecommendation` (src/models/claim.py,
lines 76-83): `approved_amount ≥ 0` and `confidence ∈ [0,1]`, else a
`ValidationError` (modelled as `none`). -/
def mkClaimRecommendation (status : ClaimStatus) (approved_amount : ℚ)
    (reasoning : String) (confidence : ℚ) (next_steps : List String) :
    Option ClaimRecommendationR :=
  if 0 ≤ approved_amount ∧ 0 ≤ confidence ∧ confidence ≤ 1 then
    some ⟨status, approved_amount, reasoning, confidence, next_steps⟩
  else none

/-- Status resolution of `_parse_recommendation`
(src/agent/claims_agent.py, lines 233-239): denial vocabulary first, then
approval vocabulary, else `needs_review`. -/
def recommendationStatus (content : String) : ClaimStatus :=
  let content_lower := lower content.data
  if ["denied", "deny", "reject"].any (fun w => occursS w content_lower) then
    ClaimStatus.denied
  else if ["approved", "approve"].any (fun w => occursS w content_lower) then
    ClaimStatus.approved
  else ClaimStatus.needs_review

/-- Approved-amount resolution of `_parse_recommendation`
(src/agent/claims_agent.py, lines 241-254): the pattern list is tried in
order and the loop breaks at the first pattern with any match, taking the
maximum of that pattern's matches; default 0. -/
def recommendationAmount (content : String) : ℚ :=
  let m1 := findDollarAmounts content.data
  if !m1.isEmpty then maxOfList m1
  else
    let m2 := findDollarsSuffix content.data
    if !m2.isEmpty then maxOfList m2
    else 0

/-- Match of `confidence[:\s]+(\d+)%` at the head of the input (already
lower-cased): the literal, one or more colons/whitespace, one or more
digits, and a percent sign. -/
def matchConfidenceAt (s : List Char) : Option ℕ :=
  if "confidence".data.isPrefixOf s then
    let r := s.drop 10
    let sep := r.takeWhile (fun c => c = ':' || c.isWhitespace)
    if sep.isEmpty then none
    else
      let r2 := r.drop sep.length
      let ds := r2.takeWhile Char.isDigit
      if ds.isEmpty then none
      else
        match r2.drop ds.length with
        | '%' :: _ => some (digitsToNat ds)
        | _ => none
  else none

/-- Leftmost search for the confidence pattern, models
`re.search(r'confidence[:\s]+(\d+)%', content_lower)`
(src/agent/claims_agent.py, line 258). -/
def searchConfidence : List Char → Option ℕ
  | [] => none
  | s@(_ :: t) =>
    match matchConfidenceAt s with
    | some n => some n
    | none => searchConfidence t

/-- The fixed next-steps list `_parse_recommendation` selects by status
(src/agent/claims_agent.py, lines 265-283). -/
def nextStepsFor (status : ClaimStatus) : List String :=
  if status = ClaimStatus.approved then
    ["Issue payment to claimant", "Send approval notification", "Close claim"]
  else if status = ClaimStatus.denied then
    ["Send denial letter with explanation", "Provide appeals process information",
     "Close claim"]
  else
    ["Assign to claims adjuster for review", "Request additional documentation",
     "Schedule follow-up investigation"]

/-- Model of `ClaimsProcessingAgent._parse_recommendation`
(src/agent/claims_agent.py, lines 226-291), including the pydantic
validation of the constructed `ClaimRecommendation`. -/
def parse_recommendation (content : String) : Option ClaimRecommendationR :=
  let content_lower := lower content.data
  let status := recommendationStatus content
  let approved_amount := recommendationAmount content
  let confidence : ℚ :=
    match searchConfidence content_lower with
    | some n => (n : ℚ) / 100
    | none => 0.8
  let reasoning :=
    if content.data.length > 500 then String.mk (content.data.take 500) else content
  mkClaimRecommendation status approved_amount reasoning confidence
    (nextStepsFor status)

/-- Maximum over all monetary tokens of a text, `$`-prefixed and
`dollars`-suffixed together, default 0.  Modelled from the claim's words
(C7) for comparison against `recommendationAmount`; the source instead
stops at the first pattern with any match. -/
def specAllMonetaryMax (content : String) : ℚ :=
  maxOfList (findDollarAmounts content.data ++ findDollarsSuffix content.data)

/-! ### Orchestration loop -/

/-- Terminal-decision detection `_has_final_decision`
(src/agent/claims_agent.py, lines 211-224). -/
def has_final_decision (content : String) : Bool :=
  ["final recommendation", "my recommendation", "decision:", "approved for",
   "deny this claim", "denied", "needs review",
   "requires manual review"].any (fun k => occursS k (lower content.data))

/-- Outcome of the iteration loop of `process_claim`: a terminal-language
round ends with the parse result (`none` models the pydantic
`ValidationError` propagating), otherwise the budget runs out or a round
returns an empty response. -/
inductive LoopOutcome where
  | decided (parsed : Option ClaimRecommendationR)
  | exhausted
  deriving Repr, DecidableEq

/-- The iteration loop of `process_claim` (src/agent/claims_agent.py,
lines 149-193): up to `rounds` more rounds, ask the collaborator
(abstracted as a function from the round index to an optional narrative;
`none` models an empty response, which breaks the loop), detect
terminal-decision language, and parse on detection.  The directive
injected near the budget's end only alters the conversation sent to the
collaborator, which the abstraction already absorbs. -/
def runLoopAux (collab : ℕ → Option String) : ℕ → ℕ → LoopOutcome
  | _, 0 => .exhausted
  | iteration, rounds + 1 =>
    match collab iteration with
    | none => .exhausted
    | some content =>
      if has_final_decision content then .decided (parse_recommendation content)
      else runLoopAux collab (iteration + 1) rounds

/-- The loop of `process_claim`, started at round 0 with the full budget. -/
def runLoop (collab : ℕ → Option String) (max_iterations : ℕ) : LoopOutcome :=
  runLoopAux collab 0 max_iterations

/-- The fallback recommendation synthesized when the loop ends without a
recommendation (src/agent/claims_agent.py, lines 195-206). -/
def fallbackRecommendation : Option ClaimRecommendationR :=
  mkClaimRecommendation ClaimStatus.needs_review 0
    "Unable to complete automated processing. Manual review required." 0
    ["Manual review by claims adjuster", "Verify all claim details"]

/-- Model of `ClaimsProcessingAgent.process_claim`
(src/agent/claims_agent.py, lines 114-209), restricted to the
recommendation the returned `Claim` carries; `none` models the request
failing on a propagated exception. -/
def process_claim (collab : ℕ → Option String) (max_iterations : ℕ) :
    Option ClaimRecommendationR :=
  match runLoop collab max_iterations with
  | .decided parsed => parsed
  | .exhausted => fallbackRecommendation

/-! ### Extraction: claim amount and incident date -/

/-- Fuel-indexed scan for `re.findall` of `\$?(<number>)`
(src/agent/tools.py, line 94): an optional dollar sign, then the greedy
number pattern (nothing follows it, so no backtracking arises). -/
def extractAmountsAux : ℕ → List Char → List ℚ
  | 0, _ => []
  | _ + 1, [] => []
  | fuel + 1, c :: t =>
    if c = '$' then
      match matchNum t with
      | some (tok, rest) => parseNumChars tok :: extractAmountsAux fuel rest
      | none => extractAmountsAux fuel t
    else
      match matchNum (c :: t) with
      | some (tok, rest) => parseNumChars tok :: extractAmountsAux fuel rest
      | none => extractAmountsAux fuel t

/-- Amount extraction of `extract_claim_information` (src/agent/tools.py,
lines 93-96): all numeric tokens above the noise threshold 100, their
maximum, default 1000.0. -/
def extract_claim_amount (claim_text : String) : ℚ :=
  let amounts := (extractAmountsAux claim_text.data.length claim_text.data).filter
    (fun a => a > 100)
  match amounts with
  | [] => 1000
  | a :: rest => rest.foldl max a

/-- Claim categories (`ClaimType` in src/models/claim.py). -/
inductive ClaimType where
  | auto
  | home
  | health
  | life
  deriving Repr, DecidableEq

/-- Structured claim information (`ClaimInformation` in
src/models/claim.py; the optional `location` field, never populated by the
source, is omitted). -/
structure ClaimInformation where
  policy_number : String
  claim_type : ClaimType
  incident_date : DateTime
  claim_amount : ℚ
  description : String
  claimant_name : Option String
  deriving Repr, DecidableEq

/-- Pydantic validation of `ClaimInformation.claim_amount`
(src/models/claim.py, lines 40-53): reject non-positive amounts and
amounts above 10,000,000, round the rest to 2 decimals. -/
def validate_claim_amount (v : ℚ) : Option ℚ :=
  if v ≤ 0 then none
  else if v > 10000000 then none
  else some (round2 v)

/-- Construction of a `ClaimInformation`, running the pydantic field
validation on the amount (`none` models a `ValidationError`). -/
def mkClaimInformation (policy_number : String) (claim_type : ClaimType)
    (incident_date : DateTime) (claim_amount : ℚ) (description : String)
    (claimant_name : Option String) : Option ClaimInformation :=
  match validate_claim_amount claim_amount with
  | none => none
  | some a =>
    some ⟨policy_number, claim_type, incident_date, a, description, claimant_name⟩

/-- Optional whitespace run followed by the literal `2025`, with at least
one whitespace character: the `\s+2025` suffix of the month-name date
pattern. -/
def wsThen2025 (r : List Char) : Bool :=
  let ws := r.takeWhile Char.isWhitespace
  !ws.isEmpty && "2025".data.isPrefixOf (r.drop ws.length)

/-- The `,?\s+2025` suffix after the day group: an optional comma (greedy;
dropping it cannot rescue a failed match, since `\s+` rejects the comma)
then whitespace and the year. -/
def novTail (q : List Char) : Bool :=
  match q with
  | ',' :: r => wsThen2025 r
  | _ => wsThen2025 q

/-- Match of one alternative (`november` or `nov`) of the month-name date
pattern at the head of the (lower-cased) input, returning the day group. -/
def matchNovDayAt (alt : List Char) (s : List Char) : Option ℕ :=
  if alt.isPrefixOf s then
    let r0 := s.drop alt.length
    let ws := r0.takeWhile Char.isWhitespace
    if ws.isEmpty then none
    else
      let r1 := r0.drop ws.length
      (digitCandidates 2 r1).findSome? (fun p =>
        if novTail p.2 then some (digitsToNat p.1) else none)
  else none

/-- Match of `(?:November|Nov)\s+(\d{1,2}),?\s+2025` at the head of the
(lower-cased) input: the `November` alternative is preferred. -/
def matchNovAt (s : List Char) : Option ℕ :=
  match matchNovDayAt "november".data s with
  | some d => some d
  | none => matchNovDayAt "nov".data s

/-- Leftmost search for the month-name date pattern
(src/agent/tools.py, line 100, compiled with `re.IGNORECASE`). -/
def searchNovDay : List Char → Option ℕ
  | [] => none
  | s@(_ :: t) =>
    match matchNovAt s with
    | some d => some d
    | none => searchNovDay t

/-- Match of `(\d{1,2})/(\d{1,2})/2025` at the head of the input,
returning the two groups (month, day). -/
def matchMMDDAt (s : List Char) : Option (ℕ × ℕ) :=
  (digitCandidates 2 s).findSome? (fun m =>
    match m.2 with
    | '/' :: r =>
      (digitCandidates 2 r).findSome? (fun d =>
        if "/2025".data.isPrefixOf d.2 then
          some (digitsToNat m.1, digitsToNat d.1)
        else none)
    | _ => none)

/-- Leftmost search for the `MM/DD/2025` date pattern
(src/agent/tools.py, line 101). -/
def searchMMDD : List Char → Option (ℕ × ℕ)
  | [] => none
  | s@(_ :: t) =>
    match matchMMDDAt s with
    | some p => some p
    | none => searchMMDD t

/-- Match of `2025-(\d{2})-(\d{2})` at the head of the input, returning the
two groups (month, day). -/
def matchYMDAt (s : List Char) : Option (ℕ × ℕ) :=
  if "2025-".data.isPrefixOf s then
    match s.drop 5 with
    | a :: b :: '-' :: c :: d :: _ =>
      if a.isDigit && b.isDigit && c.isDigit && d.isDigit then
        some (digitsToNat [a, b], digitsToNat [c, d])
      else none
    | _ => none
  else none

/-- Leftmost search for the `2025-MM-DD` date pattern
(src/agent/tools.py, line 102). -/
def searchYMD : List Char → Option (ℕ × ℕ)
  | [] => none
  | s@(_ :: t) =>
    match matchYMDAt s with
    | some p => some p
    | none => searchYMD t

/-- Date extraction of `extract_claim_information` (src/agent/tools.py,
lines 98-112): the three date patterns are searched in order and the loop
breaks at the first match, but only the month-name branch assigns
`incident_date` (`datetime(2025, 11, day)`); a match of the other two
patterns leaves the `datetime.now()` default in place.  `now` is passed
explicitly; `datetime`'s day-range validation (which raises for a day
outside November) is not modelled, so theorems constrain the day group
where relevant. -/
def extract_incident_date (claim_text : String) (now : DateTime) : DateTime :=
  let lowered := lower claim_text.data
  match searchNovDay lowered with
  | some day => ⟨2025, 11, day⟩
  | none =>
    match searchMMDD lowered with
    | some _ => now
    | none =>
      match searchYMD lowered with
      | some _ => now
      | none => now

/-! ### Theorems -/

/-- C1: for all claim amounts `a`, coverage limits `L`, deductibles `d`
with `a, L, d ≥ 0`: with `is_covered = false` the approved amount is `0`;
with `is_covered = true` the approved amount is `round(max 0 (min a L - d), 2)`
and `coverage_limit_applied = true` if and only if `a > L`. -/
theorem calculate_approved_amount_spec (a L d : ℚ)
    (ha : 0 ≤ a) (hL : 0 ≤ L) (hd : 0 ≤ d) :
    (calculate_approved_amount a L d false).approved_amount = 0 ∧
    (calculate_approved_amount a L d true).approved_amount
      = round2 (max 0 (min a L - d)) ∧
    ((calculate_approved_amount a L d true).coverage_limit_applied = true ↔ a > L) := by
  refine ⟨rfl, rfl, ?_⟩
  simp [calculate_approved_amount]

/-- Witness for C1 at `a = 60000`, `L = 50000`, `d = 500`. -/
theorem calculate_approved_amount_spec_witness :
    (calculate_approved_amount 60000 50000 500 false).approved_amount = 0 ∧
    (calculate_approved_amount 60000 50000 500 true).approved_amount
      = round2 (max 0 (min (60000:ℚ) 50000 - 500)) ∧
    ((calculate_approved_amount 60000 50000 500 true).coverage_limit_applied = true
      ↔ (60000:ℚ) > 50000) :=
  calculate_approved_amount_spec 60000 50000 500 (by norm_num) (by norm_num) (by norm_num)

/-- Second component of one indicator-accumulation step. -/
theorem fraudStep_snd (cond : Bool) (ind : String) (w : ℚ) (acc : List String × ℚ) :
    (fraudStep cond ind w acc).2 = acc.2 + weight cond w := by
  cases cond <;> simp [fraudStep, weight]

/-- The accumulated score of `fraudIndicatorsAndScore` is the weighted sum
over the fired triggers. -/
theorem fraudIndicatorsAndScore_snd (claim_text : String) (claim_amount : ℚ)
    (policy_age_days : ℤ) :
    (fraudIndicatorsAndScore claim_text claim_amount policy_age_days).2
      = fraudScoreRaw (fraudTriggers claim_text claim_amount policy_age_days) := by
  simp only [fraudIndicatorsAndScore, fraudTriggers, fraudScoreRaw, fraudStep_snd, zero_add]

/-- Capping the score at 100 does not change the risk level, because every
threshold is at most 100. -/
theorem levelOf_min_100 (s : ℚ) : levelOf (min s 100) = levelOf s := by
  unfold levelOf
  simp only [ge_iff_le, le_min_iff, show ((70:ℚ) ≤ 100) = True by norm_num,
    show ((40:ℚ) ≤ 100) = True by norm_num, show ((20:ℚ) ≤ 100) = True by norm_num,
    and_true]

/-- Projection of the risk score out of `assess_fraud_risk`: the capped
weighted sum of the fired triggers. -/
theorem assess_risk_score_eq (claim_text : String) (claim_amount : ℚ)
    (policy_age_days : ℤ) :
    (assess_fraud_risk claim_text claim_amount policy_age_days).risk_score
      = min (fraudScoreRaw (fraudTriggers claim_text claim_amount policy_age_days)) 100 := by
  dsimp only [assess_fraud_risk]
  rw [fraudIndicatorsAndScore_snd]

/-- C2: the returned `risk_level` is determined from the (capped) risk score
by the thresholds `≥70 → critical`, `≥40 → high`, `≥20 → medium`, else `low`,
and `requires_investigation = true` if and only if `risk_level ≠ low`. -/
theorem assess_fraud_risk_level_spec (claim_text : String) (claim_amount : ℚ)
    (policy_age_days : ℤ) :
    (assess_fraud_risk claim_text claim_amount policy_age_days).risk_level
      = levelOf (assess_fraud_risk claim_text claim_amount policy_age_days).risk_score ∧
    ((assess_fraud_risk claim_text claim_amount policy_age_days).requires_investigation = true
      ↔ (assess_fraud_risk claim_text claim_amount policy_age_days).risk_level
          ≠ FraudRiskLevel.low) := by
  rw [assess_risk_score_eq, levelOf_min_100]
  dsimp only [assess_fraud_risk]
  unfold levelOf
  rw [fraudIndicatorsAndScore_snd]
  split_ifs <;> simp

/-- Boolean weights are monotone in the trigger. -/
theorem weight_mono {a b : Bool} (h : a ≤ b) {w : ℚ} (hw : 0 ≤ w) :
    weight a w ≤ weight b w := by
  cases a <;> cases b <;> simp_all [weight] <;> exact absurd h (by decide)

/-- The uncapped fraud score is monotone in the set of fired triggers. -/
theorem fraudScoreRaw_mono {t u : FraudTriggers} (h : FraudTriggers.le t u) :
    fraudScoreRaw t ≤ fraudScoreRaw u := by
  obtain ⟨h1, h2, h3, h4, h5, h6, h7, h8⟩ := h
  unfold fraudScoreRaw
  refine add_le_add (add_le_add (add_le_add (add_le_add (add_le_add (add_le_add
    (add_le_add (weight_mono h1 ?_) (weight_mono h2 ?_)) (weight_mono h3 ?_))
    (weight_mono h4 ?_)) (weight_mono h5 ?_)) (weight_mono h6 ?_))
    (weight_mono h7 ?_)) (weight_mono h8 ?_) <;> norm_num

/-- C3: the returned `risk_score` is the sum of the weights of the
independently fired indicators (weights 25, 15, 10, 20, 20, 25, 15, 10),
each applied at most once, capped at 100; hence it is always at most 100 and
is monotone non-decreasing in the set of fired triggers. -/
theorem assess_fraud_risk_score_spec (claim_text : String) (claim_amount : ℚ)
    (policy_age_days : ℤ) :
    (assess_fraud_risk claim_text claim_amount policy_age_days).risk_score
      = min (fraudScoreRaw (fraudTriggers claim_text claim_amount policy_age_days)) 100 ∧
    (assess_fraud_risk claim_text claim_amount policy_age_days).risk_score ≤ 100 ∧
    ∀ (text2 : String) (amount2 : ℚ) (age2 : ℤ),
      FraudTriggers.le (fraudTriggers claim_text claim_amount policy_age_days)
        (fraudTriggers text2 amount2 age2) →
      (assess_fraud_risk claim_text claim_amount policy_age_days).risk_score
        ≤ (assess_fraud_risk text2 amount2 age2).risk_score := by
  refine ⟨assess_risk_score_eq _ _ _, ?_, ?_⟩
  · rw [assess_risk_score_eq]; exact min_le_right _ _
  · intro text2 amount2 age2 h
    rw [assess_risk_score_eq, assess_risk_score_eq]
    exact min_le_min (fraudScoreRaw_mono h) le_rfl

/-- Witness for C3 at a trigger-free input versus a multi-trigger input. -/
theorem assess_fraud_risk_score_spec_witness :
    (assess_fraud_risk "" 0 365).risk_score
      ≤ (assess_fraud_risk "urgent, and no witness" 20000 10).risk_score :=
  (assess_fraud_risk_score_spec "" 0 365).2.2 "urgent, and no witness" 20000 10 (by decide)

/-- C4: if the policy number is unknown, or the matched policy is not
active at the current time, `check_policy_coverage` returns
`is_valid = false` and `is_covered = false`, regardless of the coverages
the policy holds. -/
theorem check_policy_coverage_invalid_spec (policies : List Policy) (now : DateTime)
    (policy_number claim_type : String) (claim_amount : ℚ) :
    (getPolicy policies policy_number = none →
      (check_policy_coverage policies now policy_number claim_type claim_amount).is_valid
          = false ∧
      (check_policy_coverage policies now policy_number claim_type claim_amount).is_covered
          = false) ∧
    (∀ p : Policy, getPolicy policies policy_number = some p → p.is_active now = false →
      (check_policy_coverage policies now policy_number claim_type claim_amount).is_valid
          = false ∧
      (check_policy_coverage policies now policy_number claim_type claim_amount).is_covered
          = false) := by
  constructor
  · intro h
    simp [check_policy_coverage, h]
  · intro p hp hact
    simp [check_policy_coverage, hp, hact]

/-- Witness for C4: an unknown policy number, and an expired policy that
does hold an `auto_collision` coverage. -/
theorem check_policy_coverage_invalid_spec_witness :
    ((check_policy_coverage [samplePolicy] ⟨2025, 11, 1⟩ "POL-FAKE-999" "auto" 5000).is_valid
        = false ∧
     (check_policy_coverage [samplePolicy] ⟨2025, 11, 1⟩ "POL-FAKE-999" "auto" 5000).is_covered
        = false) ∧
    ((check_policy_coverage [samplePolicy] ⟨2025, 11, 1⟩ "POL-AUTO-005" "auto" 5000).is_valid
        = false ∧
     (check_policy_coverage [samplePolicy] ⟨2025, 11, 1⟩ "POL-AUTO-005" "auto" 5000).is_covered
        = false) :=
  ⟨(check_policy_coverage_invalid_spec [samplePolicy] ⟨2025, 11, 1⟩ "POL-FAKE-999" "auto"
      5000).1 (by decide),
   (check_policy_coverage_invalid_spec [samplePolicy] ⟨2025, 11, 1⟩ "POL-AUTO-005" "auto"
      5000).2 samplePolicy (by decide) (by decide)⟩

/-- The parsed recommendation, when construction succeeds, carries the
status and amount resolved from the narrative. -/
theorem parse_recommendation_fields (content : String) (r : ClaimRecommendationR)
    (h : parse_recommendation content = some r) :
    r.status = recommendationStatus content
      ∧ r.approved_amount = recommendationAmount content := by
  unfold parse_recommendation mkClaimRecommendation at h
  dsimp only at h
  split at h
  · cases h
    exact ⟨rfl, rfl⟩
  · cases h

/-- C5: the parsed status is `denied` if any of "denied"/"deny"/"reject"
occurs in the lower-cased narrative; otherwise `approved` if
"approved"/"approve" occurs; otherwise `needs_review` — denial vocabulary
takes precedence over approval vocabulary. -/
theorem recommendation_status_spec (content : String) :
    ((["denied", "deny", "reject"].any (fun w => occursS w (lower content.data))) = true →
      recommendationStatus content = ClaimStatus.denied) ∧
    ((["denied", "deny", "reject"].any (fun w => occursS w (lower content.data))) = false →
      (["approved", "approve"].any (fun w => occursS w (lower content.data))) = true →
      recommendationStatus content = ClaimStatus.approved) ∧
    ((["denied", "deny", "reject"].any (fun w => occursS w (lower content.data))) = false →
      (["approved", "approve"].any (fun w => occursS w (lower content.data))) = false →
      recommendationStatus content = ClaimStatus.needs_review) ∧
    (∀ r : ClaimRecommendationR, parse_recommendation content = some r →
      r.status = recommendationStatus content) := by
  refine ⟨fun h1 => ?_, fun h1 h2 => ?_, fun h1 h2 => ?_,
    fun r hr => (parse_recommendation_fields content r hr).1⟩
  · simp [recommendationStatus, h1]
  · simp [recommendationStatus, h1, h2]
  · simp [recommendationStatus, h1, h2]

/-- Witness for C5 on narratives with both vocabularies, approval only, and
neither. -/
theorem recommendation_status_spec_witness :
    recommendationStatus "The claim looks approved but must be DENIED" = ClaimStatus.denied ∧
    recommendationStatus "I approve this claim" = ClaimStatus.approved ∧
    recommendationStatus "still gathering facts" = ClaimStatus.needs_review :=
  ⟨(recommendation_status_spec "The claim looks approved but must be DENIED").1 (by decide),
   (recommendation_status_spec "I approve this claim").2.1 (by decide) (by decide),
   (recommendation_status_spec "still gathering facts").2.2.1 (by decide) (by decide)⟩

/-- C6: when the loop ends without a recommendation, the returned claim
carries exactly the fallback recommendation. -/
theorem process_claim_fallback_spec (collab : ℕ → Option String) (max_iterations : ℕ)
    (h : runLoop collab max_iterations = LoopOutcome.exhausted) :
    process_claim collab max_iterations = some
      { status := ClaimStatus.needs_review, approved_amount := 0,
        reasoning := "Unable to complete automated processing. Manual review required.",
        confidence := 0,
        next_steps := ["Manual review by claims adjuster", "Verify all claim details"] } := by
  unfold process_claim
  rw [h]
  norm_num [fallbackRecommendation, mkClaimRecommendation]

/-- Witness for C6: a collaborator that never emits terminal-decision
language within a budget of 3 rounds. -/
theorem process_claim_fallback_spec_witness :
    process_claim (fun _ => some "Analyzing the claim information") 3 = some
      { status := ClaimStatus.needs_review, approved_amount := 0,
        reasoning := "Unable to complete automated processing. Manual review required.",
        confidence := 0,
        next_steps := ["Manual review by claims adjuster", "Verify all claim details"] } :=
  process_claim_fallback_spec (fun _ => some "Analyzing the claim information") 3 (by decide)

/-- C7 counterexample: on a narrative holding a `$`-prefixed token of 5 and
a `dollars`-suffixed token of 10, the source resolves the amount to 5 (the
pattern loop breaks at the first pattern with matches), not to the maximum
10 over all monetary tokens as claimed. -/
theorem recommendation_amount_counterexample :
    recommendationAmount "Decision: pay $5 or 10 dollars" = 5 ∧
    specAllMonetaryMax "Decision: pay $5 or 10 dollars" = 10 ∧
    (5 : ℚ) ≠ 10 := by
  refine ⟨by decide, by decide, by norm_num⟩

/-- C7 amended: the parsed amount is the maximum over the `$`-prefixed
tokens when at least one exists; otherwise the maximum over the
`dollars`-suffixed tokens when at least one exists; otherwise 0. -/
theorem recommendation_amount_amended (content : String) :
    (∀ r : ClaimRecommendationR, parse_recommendation content = some r →
      r.approved_amount = recommendationAmount content) ∧
    (findDollarAmounts content.data ≠ [] →
      recommendationAmount content = maxOfList (findDollarAmounts content.data)) ∧
    (findDollarAmounts content.data = [] → findDollarsSuffix content.data ≠ [] →
      recommendationAmount content = maxOfList (findDollarsSuffix content.data)) ∧
    (findDollarAmounts content.data = [] → findDollarsSuffix content.data = [] →
      recommendationAmount content = 0) := by
  refine ⟨fun r hr => (parse_recommendation_fields content r hr).2,
    fun h1 => ?_, fun h1 h2 => ?_, fun h1 h2 => ?_⟩
  · simp [recommendationAmount, List.isEmpty_iff, h1]
  · simp [recommendationAmount, List.isEmpty_iff, h1, h2]
  · simp [recommendationAmount, List.isEmpty_iff, h1, h2]

/-- Witness for C7's amended statement on the three narrative shapes. -/
theorem recommendation_amount_amended_witness :
    recommendationAmount "pay $250 now" = maxOfList (findDollarAmounts "pay $250 now".data) ∧
    recommendationAmount "pay 300 dollars" = maxOfList (findDollarsSuffix "pay 300 dollars".data) ∧
    recommendationAmount "no sums at all" = 0 :=
  ⟨(recommendation_amount_amended "pay $250 now").2.1 (by decide),
   (recommendation_amount_amended "pay 300 dollars").2.2.1 (by decide) (by decide),
   (recommendation_amount_amended "no sums at all").2.2.2 (by decide) (by decide)⟩

/-- C8 counterexample: on a narrative matching only the `MM/DD/2025`
pattern (which denotes March 15, 2025), the extracted incident date is the
current processing time, not the date denoted by the first matching
pattern. -/
theorem extract_incident_date_counterexample :
    searchNovDay (lower "accident on 03/15/2025".data) = none ∧
    searchMMDD (lower "accident on 03/15/2025".data) = some (3, 15) ∧
    extract_incident_date "accident on 03/15/2025" ⟨2025, 12, 1⟩ = ⟨2025, 12, 1⟩ ∧
    (⟨2025, 12, 1⟩ : DateTime) ≠ (⟨2025, 3, 15⟩ : DateTime) := by
  refine ⟨by decide, by decide, by decide, by decide⟩

/-- C8 amended: the date patterns are tried in order, but only the
month-name pattern assigns the incident date (to November `day`, 2025, from
the first match); whenever it does not match — even when `MM/DD/YYYY` or
`YYYY-MM-DD` matches — the incident date is the current processing time. -/
theorem extract_incident_date_amended (claim_text : String) (now : DateTime) :
    (∀ day : ℕ, searchNovDay (lower claim_text.data) = some day →
      1 ≤ day → day ≤ 30 →
      extract_incident_date claim_text now = ⟨2025, 11, day⟩) ∧
    (searchNovDay (lower claim_text.data) = none →
      extract_incident_date claim_text now = now) := by
  constructor
  · intro day h h1 h30
    simp [extract_incident_date, h]
  · intro h
    unfold extract_incident_date
    dsimp only
    rw [h]
    rcases hm : searchMMDD (lower claim_text.data) with _ | p
    · rcases hy : searchYMD (lower claim_text.data) with _ | q <;> rfl
    · rfl

/-- Witness for C8's amended statement: a November date, and a narrative
with no date pattern. -/
theorem extract_incident_date_amended_witness :
    extract_incident_date "Accident on November 20, 2025 at dawn" ⟨2024, 1, 1⟩
        = ⟨2025, 11, 20⟩ ∧
    extract_incident_date "no date mentioned" ⟨2024, 1, 1⟩ = ⟨2024, 1, 1⟩ :=
  ⟨(extract_incident_date_amended "Accident on November 20, 2025 at dawn" ⟨2024, 1, 1⟩).1
      20 (by decide) (by decide) (by decide),
   (extract_incident_date_amended "no date mentioned" ⟨2024, 1, 1⟩).2 (by decide)⟩

/-- C10: free-text recommendation parsing is not total — a narrative whose
confidence pattern reads over 100 percent fails the `confidence ≤ 1`
validation and construction is rejected rather than clamped, while every
successfully constructed recommendation has confidence in `[0, 1]` and a
non-negative approved amount. -/
theorem parse_recommendation_validation_spec (content : String) :
    (∀ n : ℕ, searchConfidence (lower content.data) = some n → n > 100 →
      parse_recommendation content = none) ∧
    (∀ r : ClaimRecommendationR, parse_recommendation content = some r →
      0 ≤ r.confidence ∧ r.confidence ≤ 1 ∧ 0 ≤ r.approved_amount) := by
  constructor
  · intro n hn h100
    unfold parse_recommendation
    dsimp only
    rw [hn]
    have hgt : (1 : ℚ) < (n : ℚ) / 100 := by
      rw [lt_div_iff₀ (by norm_num : (0:ℚ) < 100)]
      norm_num
      exact_mod_cast h100
    simp only [mkClaimRecommendation, ite_eq_right_iff]
    intro hc
    exact absurd hc.2.2 (not_le.mpr hgt)
  · intro r hr
    unfold parse_recommendation mkClaimRecommendation at hr
    dsimp only at hr
    split at hr
    case isTrue hc =>
      cases hr
      exact ⟨hc.2.1, hc.2.2, hc.1⟩
    case isFalse => cases hr

/-- Witness for C10: an over-100-percent confidence is rejected, and a
plain narrative parses with in-range confidence and amount. -/
theorem parse_recommendation_validation_spec_witness :
    parse_recommendation "I am sure, confidence: 150%" = none ∧
    (0 ≤ ((⟨ClaimStatus.needs_review, 250, "pay $250 now", 0.8,
        nextStepsFor ClaimStatus.needs_review⟩ : ClaimRecommendationR)).confidence ∧
     ((⟨ClaimStatus.needs_review, 250, "pay $250 now", 0.8,
        nextStepsFor ClaimStatus.needs_review⟩ : ClaimRecommendationR)).confidence ≤ 1 ∧
     0 ≤ ((⟨ClaimStatus.needs_review, 250, "pay $250 now", 0.8,
        nextStepsFor ClaimStatus.needs_review⟩ : ClaimRecommendationR)).approved_amount) :=
  ⟨(parse_recommendation_validation_spec "I am sure, confidence: 150%").1 150
      (by decide) (by decide),
   (parse_recommendation_validation_spec "pay $250 now").2
      ⟨ClaimStatus.needs_review, 250, "pay $250 now", 0.8,
        nextStepsFor ClaimStatus.needs_review⟩
      (by
        have h1 : recommendationStatus "pay $250 now" = ClaimStatus.needs_review := by decide
        have h2 : recommendationAmount "pay $250 now" = 250 := by decide
        have h3 : searchConfidence (lower "pay $250 now".data) = none := by decide
        unfold parse_recommendation
        dsimp only
        rw [h1, h2, h3]
        norm_num [mkClaimRecommendation])⟩

/-- Folding `max` never goes below the initial value. -/
theorem le_foldl_max (l : List ℚ) (a : ℚ) : a ≤ l.foldl max a := by
  induction l generalizing a with
  | nil => exact le_rfl
  | cons x xs ih =>
    rw [List.foldl_cons]
    exact le_trans (le_max_left a x) (ih (max a x))

/-- Rounding to two decimals keeps amounts above 100 positive. -/
theorem round2_pos {x : ℚ} (hx : 100 < x) : 0 < round2 x := by
  unfold round2
  have h := abs_le.mp (abs_sub_round (100 * x))
  have hlow : (100 * x : ℚ) - 1 / 2 ≤ ((round (100 * x) : ℤ) : ℚ) := by linarith [h.2]
  have hpos : (0 : ℚ) < ((round (100 * x) : ℤ) : ℚ) := by linarith
  exact div_pos hpos (by norm_num)

/-- Rounding to two decimals preserves the 10,000,000 bound. -/
theorem round2_le_10M {x : ℚ} (hx : x ≤ 10000000) : round2 x ≤ 10000000 := by
  unfold round2
  have h := abs_le.mp (abs_sub_round (100 * x))
  have hup : ((round (100 * x) : ℤ) : ℚ) ≤ 100 * x + 1 / 2 := by linarith [h.1]
  have h3 : (round (100 * x) : ℤ) ≤ 1000000000 := by
    by_contra hcon
    push_neg at hcon
    have hc : ((1000000000 + 1 : ℤ) : ℚ) ≤ ((round (100 * x) : ℤ) : ℚ) := by
      exact_mod_cast hcon
    push_cast at hc
    linarith
  have h4 : ((round (100 * x) : ℤ) : ℚ) ≤ 1000000000 := by exact_mod_cast h3
  rw [div_le_iff₀ (by norm_num : (0:ℚ) < 100)]
  linarith

/-- Rounding to two decimals is idempotent. -/
theorem round2_idem (x : ℚ) : round2 (round2 x) = round2 x := by
  unfold round2
  have h : (100 : ℚ) * (((round (100 * x) : ℤ) : ℚ) / 100)
      = ((round (100 * x) : ℤ) : ℚ) := by ring
  rw [h, round_intCast]

/-- C9: the amount extraction always yields a value above the noise
threshold 100 (hence positive); a `ClaimInformation` constructed from such
an amount, when validation accepts it, carries an amount that is positive,
at most 10,000,000 and rounded to two decimals; and an amount that is
non-positive or above 10,000,000 is rejected by construction. -/
theorem extraction_amount_validation_spec :
    (∀ claim_text : String, 100 < extract_claim_amount claim_text) ∧
    (∀ (pn : String) (ct : ClaimType) (d : DateTime) (v : ℚ) (ds : String)
        (cn : Option String) (ci : ClaimInformation), 100 < v →
      mkClaimInformation pn ct d v ds cn = some ci →
      0 < ci.claim_amount ∧ ci.claim_amount ≤ 10000000
        ∧ round2 ci.claim_amount = ci.claim_amount) ∧
    (∀ (pn : String) (ct : ClaimType) (d : DateTime) (v : ℚ) (ds : String)
        (cn : Option String), v ≤ 0 ∨ v > 10000000 →
      mkClaimInformation pn ct d v ds cn = none) := by
  refine ⟨?_, ?_, ?_⟩
  · intro claim_text
    unfold extract_claim_amount
    dsimp only
    rcases hEq : (extractAmountsAux claim_text.data.length claim_text.data).filter
        (fun a => a > 100) with _ | ⟨a, rest⟩
    · simp only [hEq]
      norm_num
    · simp only [hEq]
      have ha : a ∈ (extractAmountsAux claim_text.data.length claim_text.data).filter
          (fun a => a > 100) := by
        rw [hEq]; exact List.mem_cons_self a rest
      have h100 : (100 : ℚ) < a := of_decide_eq_true (List.mem_filter.mp ha).2
      exact lt_of_lt_of_le h100 (le_foldl_max rest a)
  · intro pn ct d v ds cn ci hv h
    unfold mkClaimInformation at h
    rcases hval : validate_claim_amount v with _ | a
    · rw [hval] at h
      exact absurd h (by simp)
    · rw [hval] at h
      cases h
      unfold validate_claim_amount at hval
      rw [if_neg (not_le.mpr (lt_trans (by norm_num) hv))] at hval
      by_cases hbig : v > 10000000
      · rw [if_pos hbig] at hval
        cases hval
      · rw [if_neg hbig] at hval
        cases hval
        exact ⟨round2_pos hv, round2_le_10M (le_of_not_lt hbig), round2_idem v⟩
  · intro pn ct d v ds cn hv
    unfold mkClaimInformation validate_claim_amount
    rcases hv with hle | hgt
    · rw [if_pos hle]
    · rw [if_neg (not_le.mpr (lt_trans (by norm_num) hgt)), if_pos hgt]

/-- Witness for C9 on the canonical `$5,000` claim text, a concrete
accepted construction, and a rejected over-limit amount. -/
theorem extraction_amount_validation_spec_witness :
    100 < extract_claim_amount "The repair costs are estimated at $5,000." ∧
    (0 < ((⟨"POL-AUTO-001", ClaimType.auto, ⟨2025, 11, 20⟩, 5000, "d", none⟩ :
          ClaimInformation)).claim_amount ∧
      ((⟨"POL-AUTO-001", ClaimType.auto, ⟨2025, 11, 20⟩, 5000, "d", none⟩ :
          ClaimInformation)).claim_amount ≤ 10000000 ∧
      round2 ((⟨"POL-AUTO-001", ClaimType.auto, ⟨2025, 11, 20⟩, 5000, "d", none⟩ :
          ClaimInformation)).claim_amount
        = ((⟨"POL-AUTO-001", ClaimType.auto, ⟨2025, 11, 20⟩, 5000, "d", none⟩ :
          ClaimInformation)).claim_amount) ∧
    mkClaimInformation "POL-AUTO-001" ClaimType.auto ⟨2025, 11, 20⟩ 20000000 "d" none
      = none :=
  ⟨extraction_amount_validation_spec.1 "The repair costs are estimated at $5,000.",
   extraction_amount_validation_spec.2.1 "POL-AUTO-001" ClaimType.auto ⟨2025, 11, 20⟩
     5000 "d" none _ (by norm_num)
     (by
       have hr : round2 5000 = 5000 := by
         unfold round2
         rw [show ((100 : ℚ) * 5000) = ((500000 : ℤ) : ℚ) by norm_num, round_intCast]
         norm_num
       unfold mkClaimInformation validate_claim_amount
       rw [if_neg (by norm_num), if_neg (by norm_num)]
       simp [hr]),
   extraction_amount_validation_spec.2.2 "POL-AUTO-001" ClaimType.auto ⟨2025, 11, 20⟩
     20000000 "d" none (Or.inr (by norm_num))⟩

end AutoLife
